import Mathlib

/-!
Shallow embedding of the cross-node participant routing layer of
livekit-server.  The protobuf message types and their getters are
translated from `proto/livekit_internal.pb.go`; the routing interfaces
(`Router`, `MessageSink`, `MessageSource`, `NodeSelector`,
`ParticipantInit`) come from the routing package source.  Go pointers are
modelled as `Option`, Go `string` as `String`, `int64` as `Int`, `uint32`
as `Nat` (no claim involves 32/64-bit overflow), and a Go method with a
possibly-nil receiver takes an `Option` argument.  Components of the
routing layer whose implementation files are not part of this source
snapshot (the concrete router, session pipe, registry and selector) are
modelled from the specification; each such definition carries a doc
comment saying so.
-/

namespace LiveKit

/-- External protocol type from `livekit_rtc.proto` (not part of this
repository); its fields are irrelevant to the routing layer, so it is
embedded as an abstract payload carrying an opaque tag. -/
structure ParticipantPermission where
  tag : Nat
deriving DecidableEq, Repr

/-- External protocol type from `livekit_rtc.proto`, embedded as an
abstract payload. -/
structure SignalRequest where
  tag : Nat
deriving DecidableEq, Repr

/-- External protocol type from `livekit_rtc.proto`, embedded as an
abstract payload. -/
structure SignalResponse where
  tag : Nat
deriving DecidableEq, Repr

/-- External protocol type from `livekit_room.proto`, embedded as an
abstract payload. -/
structure RoomParticipantIdentity where
  tag : Nat
deriving DecidableEq, Repr

/-- External protocol type from `livekit_room.proto`, embedded as an
abstract payload. -/
structure MuteRoomTrackRequest where
  tag : Nat
deriving DecidableEq, Repr

/-- External protocol type from `livekit_room.proto`, embedded as an
abstract payload. -/
structure UpdateParticipantRequest where
  tag : Nat
deriving DecidableEq, Repr

/-- `NodeStats` from `livekit_internal.pb.go`. -/
structure NodeStats where
  startedAt : Int
  updatedAt : Int
  numRooms : Nat
  numClients : Nat
  numTracksIn : Nat
  numTracksOut : Nat
deriving DecidableEq, Repr

/-- `Node` from `livekit_internal.pb.go`; `Stats` is a pointer field. -/
structure Node where
  id : String
  ip : String
  numCpus : Nat
  stats : Option NodeStats
deriving DecidableEq, Repr

def Node.GetId : Option Node → String
  | some x => x.id
  | none => ""

def Node.GetIp : Option Node → String
  | some x => x.ip
  | none => ""

def Node.GetNumCpus : Option Node → Nat
  | some x => x.numCpus
  | none => 0

def Node.GetStats : Option Node → Option NodeStats
  | some x => x.stats
  | none => none

def NodeStats.GetStartedAt : Option NodeStats → Int
  | some x => x.startedAt
  | none => 0

def NodeStats.GetUpdatedAt : Option NodeStats → Int
  | some x => x.updatedAt
  | none => 0

def NodeStats.GetNumRooms : Option NodeStats → Nat
  | some x => x.numRooms
  | none => 0

def NodeStats.GetNumClients : Option NodeStats → Nat
  | some x => x.numClients
  | none => 0

def NodeStats.GetNumTracksIn : Option NodeStats → Nat
  | some x => x.numTracksIn
  | none => 0

def NodeStats.GetNumTracksOut : Option NodeStats → Nat
  | some x => x.numTracksOut
  | none => 0

/-- `StartSession` from `livekit_internal.pb.go` (declared here before the
`oneof` wrapper that refers to it); `Permission` is a pointer field. -/
structure StartSession where
  roomName : String
  identity : String
  connectionId : String
  reconnect : Bool
  metadata : String
  permission : Option ParticipantPermission
deriving DecidableEq, Repr

/-- `EndSession` from `livekit_internal.pb.go`: a message with no fields. -/
structure EndSession where
deriving DecidableEq, Repr

/-- The `oneof message` wrapper types of `RTCNodeMessage` from
`livekit_internal.pb.go`: one constructor per wrapper struct, each
holding the wrapper's pointer payload. -/
inductive RTCNodeMessage_Message where
  | startSession (startSession : Option StartSession)
  | request (request : Option SignalRequest)
  | removeParticipant (removeParticipant : Option RoomParticipantIdentity)
  | muteTrack (muteTrack : Option MuteRoomTrackRequest)
  | updateParticipant (updateParticipant : Option UpdateParticipantRequest)
deriving DecidableEq, Repr

/-- `RTCNodeMessage` from `livekit_internal.pb.go`; the `oneof` interface
field may be nil, hence `Option`. -/
structure RTCNodeMessage where
  participantKey : String
  message : Option RTCNodeMessage_Message
deriving DecidableEq, Repr

def RTCNodeMessage.GetParticipantKey : Option RTCNodeMessage → String
  | some x => x.participantKey
  | none => ""

def RTCNodeMessage.GetMessage : Option RTCNodeMessage → Option RTCNodeMessage_Message
  | some m => m.message
  | none => none

def RTCNodeMessage.GetStartSession (x : Option RTCNodeMessage) : Option StartSession :=
  match RTCNodeMessage.GetMessage x with
  | some (RTCNodeMessage_Message.startSession v) => v
  | _ => none

def RTCNodeMessage.GetRequest (x : Option RTCNodeMessage) : Option SignalRequest :=
  match RTCNodeMessage.GetMessage x with
  | some (RTCNodeMessage_Message.request v) => v
  | _ => none

def RTCNodeMessage.GetRemoveParticipant (x : Option RTCNodeMessage) : Option RoomParticipantIdentity :=
  match RTCNodeMessage.GetMessage x with
  | some (RTCNodeMessage_Message.removeParticipant v) => v
  | _ => none

def RTCNodeMessage.GetMuteTrack (x : Option RTCNodeMessage) : Option MuteRoomTrackRequest :=
  match RTCNodeMessage.GetMessage x with
  | some (RTCNodeMessage_Message.muteTrack v) => v
  | _ => none

def RTCNodeMessage.GetUpdateParticipant (x : Option RTCNodeMessage) : Option UpdateParticipantRequest :=
  match RTCNodeMessage.GetMessage x with
  | some (RTCNodeMessage_Message.updateParticipant v) => v
  | _ => none

/-- The `oneof message` wrapper types of `SignalNodeMessage` from
`livekit_internal.pb.go`. -/
inductive SignalNodeMessage_Message where
  | response (response : Option SignalResponse)
  | endSession (endSession : Option EndSession)
deriving DecidableEq, Repr

/-- `SignalNodeMessage` from `livekit_internal.pb.go`. -/
structure SignalNodeMessage where
  connectionId : String
  message : Option SignalNodeMessage_Message
deriving DecidableEq, Repr

def SignalNodeMessage.GetConnectionId : Option SignalNodeMessage → String
  | some x => x.connectionId
  | none => ""

def SignalNodeMessage.GetMessage : Option SignalNodeMessage → Option SignalNodeMessage_Message
  | some m => m.message
  | none => none

def SignalNodeMessage.GetResponse (x : Option SignalNodeMessage) : Option SignalResponse :=
  match SignalNodeMessage.GetMessage x with
  | some (SignalNodeMessage_Message.response v) => v
  | _ => none

def SignalNodeMessage.GetEndSession (x : Option SignalNodeMessage) : Option EndSession :=
  match SignalNodeMessage.GetMessage x with
  | some (SignalNodeMessage_Message.endSession v) => v
  | _ => none

def StartSession.GetRoomName : Option StartSession → String
  | some x => x.roomName
  | none => ""

def StartSession.GetIdentity : Option StartSession → String
  | some x => x.identity
  | none => ""

def StartSession.GetConnectionId : Option StartSession → String
  | some x => x.connectionId
  | none => ""

def StartSession.GetReconnect : Option StartSession → Bool
  | some x => x.reconnect
  | none => false

def StartSession.GetMetadata : Option StartSession → String
  | some x => x.metadata
  | none => ""

def StartSession.GetPermission : Option StartSession → Option ParticipantPermission
  | some x => x.permission
  | none => none

/-- `RemoveParticipant` from `livekit_internal.pb.go`. -/
structure RemoveParticipant where
  participantId : String
deriving DecidableEq, Repr

def RemoveParticipant.GetParticipantId : Option RemoveParticipant → String
  | some x => x.participantId
  | none => ""

end LiveKit

namespace Routing

open LiveKit

/-- `ParticipantInit` from the routing package source; `Permission` is a
pointer field. -/
structure ParticipantInit where
  identity : String
  metadata : String
  reconnect : Bool
  permission : Option ParticipantPermission
  protocolVersion : Int
  autoSubscribe : Bool
  hidden : Bool
deriving DecidableEq, Repr

/-- Modelled from the spec: the participant-key convention of the routing
layer, `participant_key = room_name + '|' + identity`; the publisher that
builds keys is not part of this source snapshot. -/
def participantKeyOf (roomName identity : String) : String :=
  roomName ++ "|" ++ identity

/-- Modelled from the spec: an `RTCNodeMessage` as published on the
`rtc.<room>` subject, keyed by the participant key of the addressed
participant; the publisher is not part of this source snapshot. -/
def rtcMessageFor (roomName identity : String)
    (mm : Option RTCNodeMessage_Message) : RTCNodeMessage :=
  { participantKey := participantKeyOf roomName identity, message := mm }

/-- Modelled from the spec: the establishment step that encodes a
`ParticipantInit` into the `StartSession` wire message carrying room,
identity, connection_id, reconnect, metadata and permission; the
signal-side publisher is not part of this source snapshot. -/
def startSessionOf (roomName connectionId : String)
    (pi : ParticipantInit) : StartSession :=
  { roomName := roomName
    identity := pi.identity
    connectionId := connectionId
    reconnect := pi.reconnect
    metadata := pi.metadata
    permission := pi.permission }

/-- The room-to-node directory state: a partial map from room name to the
id of the RTC-owning node. -/
def Dir : Type := String → Option String

/-- Modelled from the spec: `GetNodeForRoom` looks the room up in the
directory; the concrete router implementation is not part of this source
snapshot. -/
def GetNodeForRoom (d : Dir) (room : String) : Option String :=
  d room

/-- Modelled from the spec: `SetNodeForRoom` is set-if-absent over the
directory and its result reflects the winning assignment; the concrete
router implementation is not part of this source snapshot. -/
def SetNodeForRoom (d : Dir) (room nodeId : String) : Dir × String :=
  match d room with
  | some existing => (d, existing)
  | none => (fun r => if r = room then some nodeId else d r, nodeId)

/-- Modelled from the spec: `ClearRoomState` removes the room's directory
entry; the concrete router implementation is not part of this source
snapshot. -/
def ClearRoomState (d : Dir) (room : String) : Dir :=
  fun r => if r = room then none else d r

/-- The default heartbeat-expiry window, seconds. -/
def T_expire : Int := 10

/-- The `updated_at` heartbeat of a node record, read through the nil-safe
getters the way Go code reads `n.GetStats().GetUpdatedAt()`. -/
def nodeUpdatedAt (n : Node) : Int :=
  NodeStats.GetUpdatedAt (Node.GetStats (some n))

/-- A node record is fresh when its heartbeat is within the expiry
window. -/
def freshNode (now texpire : Int) (n : Node) : Bool :=
  decide (now - nodeUpdatedAt n ≤ texpire)

/-- Modelled from the spec: `RemoveDeadNodes` deletes exactly the records
whose heartbeat is stale (`now - stats.updated_at > T_expire`); the
concrete registry implementation is not part of this source snapshot. -/
def RemoveDeadNodes (now texpire : Int) (reg : List Node) : List Node :=
  reg.filter (freshNode now texpire)

/-- Modelled from the spec: the default node selector, a deterministic
pick (uniform in the seed) over the nodes whose `updated_at` is fresh,
failing with "no available nodes" when none is; the concrete selector
implementation is not part of this source snapshot. -/
def SelectNode (seed : Nat) (now texpire : Int) (nodes : List Node)
    (_room : String) : Except String Node :=
  match nodes.filter (freshNode now texpire) with
  | [] => Except.error "no available nodes"
  | x :: xs =>
      Except.ok ((x :: xs).get ⟨seed % (x :: xs).length, Nat.mod_lt _ (by simp)⟩)

/-- The operations a routing call issues against the backing store; each
modelled routing operation also reports the trace of store operations it
performed, so internal retries are observable. -/
inductive StoreOp where
  | get (room : String)
  | setnx (room node : String)
  | del (room : String)
  | scan
deriving DecidableEq, Repr

/-- The number of `ClearRoomState` store operations in a trace: each one
marks one internal room-reassignment retry. -/
def delCount (tr : List StoreOp) : Nat :=
  (tr.filter (fun op => match op with | StoreOp.del _ => true | _ => false)).length

/-- `GetNodeForRoom` with its store trace: a single lookup. -/
def GetNodeForRoomT (d : Dir) (room : String) : Option String × List StoreOp :=
  (GetNodeForRoom d room, [StoreOp.get room])

/-- `SetNodeForRoom` with its store trace: a single set-if-absent. -/
def SetNodeForRoomT (d : Dir) (room nodeId : String) : (Dir × String) × List StoreOp :=
  (SetNodeForRoom d room nodeId, [StoreOp.setnx room nodeId])

/-- `ClearRoomState` with its store trace: a single delete. -/
def ClearRoomStateT (d : Dir) (room : String) : Dir × List StoreOp :=
  (ClearRoomState d room, [StoreOp.del room])

/-- `RemoveDeadNodes` with its store trace: a single scan. -/
def RemoveDeadNodesT (now texpire : Int) (reg : List Node) : List Node × List StoreOp :=
  (RemoveDeadNodes now texpire reg, [StoreOp.scan])

/-- The routing-layer state seen by `StartParticipantSignal`: the
room-to-node directory, the node-registry snapshot, the clock, the expiry
window and the selector seed. -/
structure RState where
  dir : Dir
  nodes : List Node
  now : Int
  texpire : Int
  seed : Nat

/-- Modelled from the spec: one room-assignment attempt of
`StartParticipantSignal` (step 1): look the room up in the directory and,
if it is unassigned, select a node over the registry snapshot and attempt
set-if-absent, accepting whichever assignment wins. -/
def assignRoom (st : RState) (room : String) :
    Except String (RState × String) × List StoreOp :=
  match st.dir room with
  | some n => (Except.ok (st, n), [StoreOp.get room])
  | none =>
      match SelectNode st.seed st.now st.texpire st.nodes room with
      | Except.error e => (Except.error e, [StoreOp.get room])
      | Except.ok node =>
          let p := SetNodeForRoom st.dir room node.id
          (Except.ok ({ st with dir := p.1 }, p.2),
           [StoreOp.get room, StoreOp.setnx room node.id])

/-- Whether a node id is bound to a live (registered and fresh) node in
the registry snapshot. -/
def isLiveIn (st : RState) (nodeId : String) : Bool :=
  st.nodes.any (fun n => n.id == nodeId && freshNode st.now st.texpire n)

/-- Modelled from the spec: the node-resolution part of
`StartParticipantSignal` (steps 1 and 2): assign or look up the room's
RTC node; verify it is live per the registry; if not, `ClearRoomState`
and retry the assignment once; a second failure returns
"no available node".  The concrete router implementation is not part of
this source snapshot. -/
def StartParticipantSignal (st : RState) (room : String) :
    Except String (RState × String) × List StoreOp :=
  match assignRoom st room with
  | (Except.error e, tr) => (Except.error e, tr)
  | (Except.ok (st1, n), tr1) =>
      if isLiveIn st1 n then (Except.ok (st1, n), tr1)
      else
        let st2 : RState := { st1 with dir := ClearRoomState st1.dir room }
        match assignRoom st2 room with
        | (Except.error _, tr3) =>
            (Except.error "no available node", tr1 ++ [StoreOp.del room] ++ tr3)
        | (Except.ok (st3, n2), tr3) =>
            if isLiveIn st3 n2 then
              (Except.ok (st3, n2), tr1 ++ [StoreOp.del room] ++ tr3)
            else
              (Except.error "no available node", tr1 ++ [StoreOp.del room] ++ tr3)

/-- Modelled from the spec: one direction of a session pipe.  `buf` is
the bounded in-memory FIFO between the sink and the source, `written` and
`delivered` are the histories of messages accepted by the sink and handed
to the consumer, `closed` records that the sink was closed,
`closeObserved` that the consumer has observed end-of-sequence, and
`onCloseFired` that registered close observers have fired.  The concrete
pipe implementation is not part of this source snapshot. -/
structure Chan (α : Type) where
  buf : List α
  written : List α
  delivered : List α
  closed : Bool
  closeObserved : Bool
  onCloseFired : Bool
deriving DecidableEq, Repr

/-- A freshly created channel direction: empty and open. -/
def Chan.init {α : Type} : Chan α :=
  { buf := [], written := [], delivered := [], closed := false,
    closeObserved := false, onCloseFired := false }

/-- Modelled from the spec: `WriteMessage` on the sink appends to the
FIFO; a write against a closed sink is rejected and changes nothing. -/
def writeMessage {α : Type} (c : Chan α) (m : α) : Chan α :=
  if c.closed then c
  else { c with buf := c.buf ++ [m], written := c.written ++ [m] }

/-- Modelled from the spec: one receive on the source: the head of the
FIFO if any; end-of-sequence (and the consumer observing the close) when
the FIFO is drained and the sink is closed; otherwise nothing yet. -/
def readMessage {α : Type} (c : Chan α) : Chan α × Option α :=
  match c.buf with
  | m :: rest => ({ c with buf := rest, delivered := c.delivered ++ [m] }, some m)
  | [] =>
      if c.closed then ({ c with closeObserved := true }, none)
      else (c, none)

/-- Modelled from the spec: `Close` on the sink: marks the direction
closed and fires the registered close observers. -/
def closeChan {α : Type} (c : Chan α) : Chan α :=
  { c with closed := true, onCloseFired := true }

/-- The events one pipe direction is subjected to: a sink write, a source
receive, a sink close. -/
inductive PipeOp (α : Type) where
  | write (m : α)
  | read
  | close

/-- One event applied to a channel direction. -/
def stepChan {α : Type} (c : Chan α) : PipeOp α → Chan α
  | PipeOp.write m => writeMessage c m
  | PipeOp.read => (readMessage c).1
  | PipeOp.close => closeChan c

/-- A whole execution: the events applied in order. -/
def runChan {α : Type} (c : Chan α) (ops : List (PipeOp α)) : Chan α :=
  ops.foldl stepChan c

/-- Modelled from the spec: a session pipe is two directions glued at
creation: the request direction (signal-side sink, RTC-side source) and
the response direction (RTC-side sink, signal-side source). -/
structure SessionPipe where
  req : Chan SignalRequest
  res : Chan SignalResponse
deriving DecidableEq, Repr

/-- Closing both directions of a pipe. -/
def closePipe (p : SessionPipe) : SessionPipe :=
  { req := closeChan p.req, res := closeChan p.res }

/-- Modelled from the spec: closing one direction schedules closing of
the other; the settled state after the bounded grace window has both
directions closed whenever either one was. -/
def settlePipe (p : SessionPipe) : SessionPipe :=
  if p.req.closed || p.res.closed then closePipe p else p

/-- Modelled from the spec: closing the request sink on the signal side
and letting the close propagate across the pipe. -/
def closeFromSignal (p : SessionPipe) : SessionPipe :=
  settlePipe { p with req := closeChan p.req }

/-- Modelled from the spec: the RTC side ending the session (observing
`EndSession` on the response direction) and letting the close propagate
across the pipe. -/
def closeFromRTC (p : SessionPipe) : SessionPipe :=
  settlePipe { p with res := closeChan p.res }

/-- Draining receives: `n` consecutive receives on the source. -/
def readAll {α : Type} (c : Chan α) : Nat → Chan α
  | 0 => c
  | n + 1 => readAll (readMessage c).1 n

/-- The channel-direction invariant: the messages handed to the consumer
followed by the ones still buffered are exactly the messages the sink
accepted, and once the consumer has observed the close the buffer is
drained and the sink is closed. -/
def ChanInv {α : Type} (c : Chan α) : Prop :=
  c.written = c.delivered ++ c.buf ∧
  (c.closeObserved = true → c.buf = [] ∧ c.closed = true)

/-- A sample `NodeStats` record with the given heartbeat. -/
def sampleStats (u : Int) : NodeStats :=
  { startedAt := 0, updatedAt := u, numRooms := 0, numClients := 0,
    numTracksIn := 0, numTracksOut := 0 }

/-- A sample node record with the given id and heartbeat. -/
def sampleNode (i : String) (u : Int) : Node :=
  { id := i, ip := "", numCpus := 1, stats := some (sampleStats u) }

/-- A sample routing state whose directory binds every room to node `n2`
while the registry holds only a stale record for `n2`: the dead-owner
scenario of the spec. -/
def staleOwnerState : RState :=
  { dir := fun _ => some "n2", nodes := [sampleNode "n2" 0],
    now := 100, texpire := 10, seed := 0 }

/-- A sample event list that writes one request, delivers it, closes the
sink and lets the consumer observe the close. -/
def sampleOps : List (PipeOp SignalRequest) :=
  [PipeOp.write ⟨1⟩, PipeOp.read, PipeOp.close, PipeOp.read]

/-- A sample continuation of `sampleOps`: activity attempted after the
close was observed. -/
def sampleMoreOps : List (PipeOp SignalRequest) :=
  [PipeOp.write ⟨2⟩, PipeOp.read, PipeOp.read]

end Routing

namespace Routing

open LiveKit

theorem chanInv_init {α : Type} : ChanInv (Chan.init (α := α)) := by
  simp [ChanInv, Chan.init]

theorem chanInv_step {α : Type} (c : Chan α) (op : PipeOp α)
    (h : ChanInv c) : ChanInv (stepChan c op) := by
  obtain ⟨h1, h2⟩ := h
  cases op with
  | write m =>
      by_cases hc : c.closed = true
      · have hs : stepChan c (PipeOp.write m) = c := by
          simp [stepChan, writeMessage, hc]
        rw [hs]; exact ⟨h1, h2⟩
      · have hc2 : c.closed = false := by simpa using hc
        have hs : stepChan c (PipeOp.write m) =
            { c with buf := c.buf ++ [m], written := c.written ++ [m] } := by
          simp [stepChan, writeMessage, hc2]
        rw [hs]
        refine ⟨by simp [h1], ?_⟩
        intro hobs
        exact absurd (h2 hobs).2 (by simp [hc2])
  | read =>
      cases hb : c.buf with
      | nil =>
          by_cases hc : c.closed = true
          · have hs : stepChan c PipeOp.read = { c with closeObserved := true } := by
              simp [stepChan, readMessage, hb, hc]
            rw [hs]
            exact ⟨by simpa [hb] using h1, fun _ => ⟨hb, hc⟩⟩
          · have hc2 : c.closed = false := by simpa using hc
            have hs : stepChan c PipeOp.read = c := by
              simp [stepChan, readMessage, hb, hc2]
            rw [hs]; exact ⟨h1, h2⟩
      | cons m rest =>
          have hs : stepChan c PipeOp.read =
              { c with buf := rest, delivered := c.delivered ++ [m] } := by
            simp [stepChan, readMessage, hb]
          rw [hs]
          refine ⟨by simp [h1, hb], ?_⟩
          intro hobs
          exact absurd (h2 hobs).1 (by simp [hb])
  | close =>
      have hs : stepChan c PipeOp.close =
          { c with closed := true, onCloseFired := true } := by
        simp [stepChan, closeChan]
      rw [hs]
      exact ⟨h1, fun hobs => ⟨(h2 hobs).1, rfl⟩⟩

theorem chanInv_run {α : Type} (ops : List (PipeOp α)) (c : Chan α)
    (h : ChanInv c) : ChanInv (runChan c ops) := by
  induction ops generalizing c with
  | nil => exact h
  | cons op rest ih => exact ih _ (chanInv_step c op h)

theorem step_after_observed {α : Type} (c : Chan α) (op : PipeOp α)
    (h : ChanInv c) (hobs : c.closeObserved = true) :
    (stepChan c op).delivered = c.delivered ∧
    (stepChan c op).closeObserved = true ∧ ChanInv (stepChan c op) := by
  obtain ⟨hb, hc⟩ := h.2 hobs
  refine ⟨?_, ?_, chanInv_step c op h⟩ <;>
    cases op <;> simp [stepChan, writeMessage, readMessage, closeChan, hb, hc, hobs]

theorem run_after_observed {α : Type} (ops : List (PipeOp α)) (c : Chan α)
    (h : ChanInv c) (hobs : c.closeObserved = true) :
    (runChan c ops).delivered = c.delivered := by
  induction ops generalizing c with
  | nil => rfl
  | cons op rest ih =>
      obtain ⟨hd, ho, hi⟩ := step_after_observed c op h hobs
      calc (runChan (stepChan c op) rest).delivered
          = (stepChan c op).delivered := ih _ hi ho
        _ = c.delivered := hd

theorem readAll_keeps_observed {α : Type} (n : Nat) (c : Chan α)
    (hb : c.buf = []) (hc : c.closed = true) (ho : c.closeObserved = true) :
    (readAll c n).closeObserved = true := by
  induction n generalizing c with
  | zero => exact ho
  | succ k ih =>
      have hs : (readMessage c).1 = { c with closeObserved := true } := by
        simp [readMessage, hb, hc]
      simp only [readAll, hs]
      exact ih { c with closeObserved := true } (by simp [hb]) (by simp [hc]) rfl

theorem readAll_observes_close {α : Type} (n : Nat) (c : Chan α)
    (hc : c.closed = true) (hlen : c.buf.length ≤ n) :
    (readAll c (n + 1)).closeObserved = true := by
  induction n generalizing c with
  | zero =>
      have hb : c.buf = [] := List.eq_nil_of_length_eq_zero (Nat.le_zero.mp hlen)
      have hs : (readMessage c).1 = { c with closeObserved := true } := by
        simp [readMessage, hb, hc]
      simp only [readAll, hs]
  | succ k ih =>
      cases hb : c.buf with
      | nil =>
          have hs : (readMessage c).1 = { c with closeObserved := true } := by
            simp [readMessage, hb, hc]
          simp only [readAll, hs]
          exact readAll_keeps_observed (k + 1) { c with closeObserved := true }
            (by simp [hb]) (by simp [hc]) rfl
      | cons m rest =>
          have hs : (readMessage c).1 =
              { c with buf := rest, delivered := c.delivered ++ [m] } := by
            simp [readMessage, hb]
          have hlen2 : rest.length ≤ k := by
            have := hlen
            simp [hb] at this
            omega
          simp only [readAll, hs]
          exact ih { c with buf := rest, delivered := c.delivered ++ [m] }
            (by simp [hc]) (by simpa using hlen2)

theorem delCount_append (a b : List StoreOp) :
    delCount (a ++ b) = delCount a + delCount b := by
  simp [delCount, List.filter_append]

theorem delCount_del_cons (r : String) (tr : List StoreOp) :
    delCount (StoreOp.del r :: tr) = delCount tr + 1 := by
  simp [delCount]

theorem assignRoom_delCount (st : RState) (room : String) :
    delCount (assignRoom st room).2 = 0 := by
  cases h : st.dir room with
  | some n => simp [assignRoom, h, delCount]
  | none =>
      cases hs : SelectNode st.seed st.now st.texpire st.nodes room with
      | error e => simp [assignRoom, h, hs, delCount]
      | ok node => simp [assignRoom, h, hs, delCount]

theorem selectNode_ok_mem (seed : Nat) (now texpire : Int)
    (nodes : List Node) (room : String) (n : Node)
    (hok : SelectNode seed now texpire nodes room = Except.ok n) :
    n ∈ nodes ∧ freshNode now texpire n = true := by
  cases h : nodes.filter (freshNode now texpire) with
  | nil => simp [SelectNode, h] at hok
  | cons x xs =>
      simp only [SelectNode, h] at hok
      have hmem : n ∈ x :: xs := by
        cases hok
        exact List.get_mem _ _ _
      rw [← h] at hmem
      exact List.mem_filter.mp hmem

/-- C10: every getter of the generated internal message types (`Node`,
`NodeStats`, `RTCNodeMessage`, `SignalNodeMessage`, `StartSession`,
`RemoveParticipant`) is total on nil receivers and returns the field's
zero value (empty string, 0, false or nil) there. -/
theorem nil_receiver_getters_total :
    Node.GetId none = "" ∧ Node.GetIp none = "" ∧
    Node.GetNumCpus none = 0 ∧ Node.GetStats none = none ∧
    NodeStats.GetStartedAt none = 0 ∧ NodeStats.GetUpdatedAt none = 0 ∧
    NodeStats.GetNumRooms none = 0 ∧ NodeStats.GetNumClients none = 0 ∧
    NodeStats.GetNumTracksIn none = 0 ∧ NodeStats.GetNumTracksOut none = 0 ∧
    RTCNodeMessage.GetParticipantKey none = "" ∧
    RTCNodeMessage.GetMessage none = none ∧
    RTCNodeMessage.GetStartSession none = none ∧
    RTCNodeMessage.GetRequest none = none ∧
    RTCNodeMessage.GetRemoveParticipant none = none ∧
    RTCNodeMessage.GetMuteTrack none = none ∧
    RTCNodeMessage.GetUpdateParticipant none = none ∧
    SignalNodeMessage.GetConnectionId none = "" ∧
    SignalNodeMessage.GetMessage none = none ∧
    SignalNodeMessage.GetResponse none = none ∧
    SignalNodeMessage.GetEndSession none = none ∧
    StartSession.GetRoomName none = "" ∧
    StartSession.GetIdentity none = "" ∧
    StartSession.GetConnectionId none = "" ∧
    StartSession.GetReconnect none = false ∧
    StartSession.GetMetadata none = "" ∧
    StartSession.GetPermission none = none ∧
    RemoveParticipant.GetParticipantId none = "" :=
  ⟨rfl, rfl, rfl, rfl, rfl, rfl, rfl, rfl, rfl, rfl, rfl, rfl, rfl, rfl,
   rfl, rfl, rfl, rfl, rfl, rfl, rfl, rfl, rfl, rfl, rfl, rfl, rfl, rfl⟩

/-- C9: the `StartSession` wire message carries only room name, identity,
connection id, reconnect, metadata and permission, so the establishment
encoding of a `ParticipantInit` transmits exactly its `Identity`,
`Metadata`, `Reconnect` and `Permission` and drops `ProtocolVersion`,
`AutoSubscribe` and `Hidden`: two inits that agree on the four
transmitted fields encode to the same message. -/
theorem start_session_drops_client_fields :
    (∀ (roomName connectionId : String) (pi : ParticipantInit),
      (startSessionOf roomName connectionId pi).roomName = roomName ∧
      (startSessionOf roomName connectionId pi).identity = pi.identity ∧
      (startSessionOf roomName connectionId pi).connectionId = connectionId ∧
      (startSessionOf roomName connectionId pi).reconnect = pi.reconnect ∧
      (startSessionOf roomName connectionId pi).metadata = pi.metadata ∧
      (startSessionOf roomName connectionId pi).permission = pi.permission) ∧
    (∀ (roomName connectionId : String) (p1 p2 : ParticipantInit),
      p1.identity = p2.identity → p1.metadata = p2.metadata →
      p1.reconnect = p2.reconnect → p1.permission = p2.permission →
      startSessionOf roomName connectionId p1 = startSessionOf roomName connectionId p2) := by
  constructor
  · intro roomName connectionId pi
    exact ⟨rfl, rfl, rfl, rfl, rfl, rfl⟩
  · intro roomName connectionId p1 p2 h1 h2 h3 h4
    simp [startSessionOf, h1, h2, h3, h4]

/-- Witness for C9: two concrete `ParticipantInit` values differing only
in `ProtocolVersion`, `AutoSubscribe` and `Hidden` encode to the same
`StartSession` message. -/
theorem start_session_drops_client_fields_witness :
    startSessionOf "roomA" "c1"
      { identity := "alice", metadata := "m", reconnect := false,
        permission := none, protocolVersion := 2, autoSubscribe := true,
        hidden := false } =
    startSessionOf "roomA" "c1"
      { identity := "alice", metadata := "m", reconnect := false,
        permission := none, protocolVersion := 7, autoSubscribe := false,
        hidden := true } :=
  start_session_drops_client_fields.2 "roomA" "c1" _ _ rfl rfl rfl rfl

/-- C5: `RTCNodeMessage` is a tagged union over exactly the five variants
start-session, signal-request, remove-participant, mute-track and
update-participant; a published message carries
`participant_key = room_name + bar + identity`; and each variant accessor
returns the payload exactly when the message holds that variant and nil
otherwise. -/
theorem rtc_node_message_tagged_union :
    (∀ mm : RTCNodeMessage_Message,
      (∃ v, mm = RTCNodeMessage_Message.startSession v) ∨
      (∃ v, mm = RTCNodeMessage_Message.request v) ∨
      (∃ v, mm = RTCNodeMessage_Message.removeParticipant v) ∨
      (∃ v, mm = RTCNodeMessage_Message.muteTrack v) ∨
      (∃ v, mm = RTCNodeMessage_Message.updateParticipant v)) ∧
    (∀ (roomName identity : String) (mm : Option RTCNodeMessage_Message),
      (rtcMessageFor roomName identity mm).participantKey =
        roomName ++ "|" ++ identity) ∧
    (∀ m : RTCNodeMessage,
      (∀ v, m.message = some (RTCNodeMessage_Message.startSession v) →
        RTCNodeMessage.GetStartSession (some m) = v) ∧
      ((∀ v, m.message ≠ some (RTCNodeMessage_Message.startSession v)) →
        RTCNodeMessage.GetStartSession (some m) = none) ∧
      (∀ v, m.message = some (RTCNodeMessage_Message.request v) →
        RTCNodeMessage.GetRequest (some m) = v) ∧
      ((∀ v, m.message ≠ some (RTCNodeMessage_Message.request v)) →
        RTCNodeMessage.GetRequest (some m) = none) ∧
      (∀ v, m.message = some (RTCNodeMessage_Message.removeParticipant v) →
        RTCNodeMessage.GetRemoveParticipant (some m) = v) ∧
      ((∀ v, m.message ≠ some (RTCNodeMessage_Message.removeParticipant v)) →
        RTCNodeMessage.GetRemoveParticipant (some m) = none) ∧
      (∀ v, m.message = some (RTCNodeMessage_Message.muteTrack v) →
        RTCNodeMessage.GetMuteTrack (some m) = v) ∧
      ((∀ v, m.message ≠ some (RTCNodeMessage_Message.muteTrack v)) →
        RTCNodeMessage.GetMuteTrack (some m) = none) ∧
      (∀ v, m.message = some (RTCNodeMessage_Message.updateParticipant v) →
        RTCNodeMessage.GetUpdateParticipant (some m) = v) ∧
      ((∀ v, m.message ≠ some (RTCNodeMessage_Message.updateParticipant v)) →
        RTCNodeMessage.GetUpdateParticipant (some m) = none)) := by
  refine ⟨?_, ?_, ?_⟩
  · intro mm
    cases mm with
    | startSession v => exact Or.inl ⟨v, rfl⟩
    | request v => exact Or.inr (Or.inl ⟨v, rfl⟩)
    | removeParticipant v => exact Or.inr (Or.inr (Or.inl ⟨v, rfl⟩))
    | muteTrack v => exact Or.inr (Or.inr (Or.inr (Or.inl ⟨v, rfl⟩)))
    | updateParticipant v => exact Or.inr (Or.inr (Or.inr (Or.inr ⟨v, rfl⟩)))
  · intro roomName identity mm
    rfl
  · intro m
    refine ⟨?_, ?_, ?_, ?_, ?_, ?_, ?_, ?_, ?_, ?_⟩ <;>
      first
      | (intro v hv
         simp [RTCNodeMessage.GetStartSession, RTCNodeMessage.GetRequest,
               RTCNodeMessage.GetRemoveParticipant, RTCNodeMessage.GetMuteTrack,
               RTCNodeMessage.GetUpdateParticipant, RTCNodeMessage.GetMessage, hv])
      | (intro hne
         rcases hm : m.message with _ | mm
         · simp [RTCNodeMessage.GetStartSession, RTCNodeMessage.GetRequest,
                 RTCNodeMessage.GetRemoveParticipant, RTCNodeMessage.GetMuteTrack,
                 RTCNodeMessage.GetUpdateParticipant, RTCNodeMessage.GetMessage, hm]
         · cases mm <;>
             first
             | exact absurd hm (hne _)
             | simp [RTCNodeMessage.GetStartSession, RTCNodeMessage.GetRequest,
                     RTCNodeMessage.GetRemoveParticipant, RTCNodeMessage.GetMuteTrack,
                     RTCNodeMessage.GetUpdateParticipant, RTCNodeMessage.GetMessage, hm])

/-- Witness for C5: a concrete published message holding the
signal-request variant, whose request accessor returns the payload, whose
start-session accessor returns nil, and whose participant key is
`room` + bar + `alice`. -/
theorem rtc_node_message_tagged_union_witness :
    (rtcMessageFor "room" "alice"
      (some (RTCNodeMessage_Message.request (some ⟨7⟩)))).participantKey =
        "room" ++ "|" ++ "alice" ∧
    RTCNodeMessage.GetRequest
      (some (rtcMessageFor "room" "alice"
        (some (RTCNodeMessage_Message.request (some ⟨7⟩))))) = some ⟨7⟩ ∧
    RTCNodeMessage.GetStartSession
      (some (rtcMessageFor "room" "alice"
        (some (RTCNodeMessage_Message.request (some ⟨7⟩))))) = none :=
  ⟨rtc_node_message_tagged_union.2.1 "room" "alice" _,
   (rtc_node_message_tagged_union.2.2 _).2.2.1 (some ⟨7⟩) rfl,
   (rtc_node_message_tagged_union.2.2 _).2.1
     (fun v hv => by simp [rtcMessageFor, participantKeyOf] at hv)⟩

/-- C1: `SetNodeForRoom` is set-if-absent: writing `n1` then `n2` for an
unassigned room leaves the room bound to `n1` and the second (losing)
call returns the existing assignment; once a room is bound, any further
`SetNodeForRoom` leaves the binding unchanged and returns it, so at most
one node is ever bound to a given room. -/
theorem set_node_for_room_set_if_absent :
    ∀ (d : Dir) (room n1 n2 : String),
      (d room = none →
        (SetNodeForRoom d room n1).2 = n1 ∧
        GetNodeForRoom (SetNodeForRoom (SetNodeForRoom d room n1).1 room n2).1 room =
          some n1 ∧
        (SetNodeForRoom (SetNodeForRoom d room n1).1 room n2).2 = n1) ∧
      (∀ m, d room = some m →
        (SetNodeForRoom d room n1).1 room = some m ∧
        (SetNodeForRoom d room n1).2 = m) := by
  intro d room n1 n2
  constructor
  · intro h
    have h1 : SetNodeForRoom d room n1 =
        (fun r => if r = room then some n1 else d r, n1) := by
      simp [SetNodeForRoom, h]
    refine ⟨by rw [h1], ?_, ?_⟩ <;> rw [h1] <;>
      simp [SetNodeForRoom, GetNodeForRoom]
  · intro m h
    simp [SetNodeForRoom, h]

/-- Witness for C1: with an empty directory, assigning `nA` then `nB` to
room `r1` leaves `r1` bound to `nA` and returns `nA` to the losing
caller; with `r1` already bound to `n0`, a write of `nA` keeps `n0`. -/
theorem set_node_for_room_set_if_absent_witness :
    (SetNodeForRoom (fun _ => none) "r1" "nA").2 = "nA" ∧
    GetNodeForRoom
      (SetNodeForRoom (SetNodeForRoom (fun _ => none) "r1" "nA").1 "r1" "nB").1
      "r1" = some "nA" ∧
    (SetNodeForRoom (SetNodeForRoom (fun _ => none) "r1" "nA").1 "r1" "nB").2 = "nA" ∧
    (SetNodeForRoom (fun _ => some "n0") "r1" "nA").1 "r1" = some "n0" ∧
    (SetNodeForRoom (fun _ => some "n0") "r1" "nA").2 = "n0" := by
  refine ⟨?_, ?_, ?_, ?_, ?_⟩
  · exact ((set_node_for_room_set_if_absent (fun _ => none) "r1" "nA" "nB").1 rfl).1
  · exact ((set_node_for_room_set_if_absent (fun _ => none) "r1" "nA" "nB").1 rfl).2.1
  · exact ((set_node_for_room_set_if_absent (fun _ => none) "r1" "nA" "nB").1 rfl).2.2
  · exact ((set_node_for_room_set_if_absent (fun _ => some "n0") "r1" "nA" "nB").2
      "n0" rfl).1
  · exact ((set_node_for_room_set_if_absent (fun _ => some "n0") "r1" "nA" "nB").2
      "n0" rfl).2

/-- C4: `RemoveDeadNodes` deletes exactly the stale records: afterwards
no record with `now - updated_at > texpire` remains, every fresh record
of the registry is still present unchanged, and the survivors are kept in
place (a sublist of the registry). -/
theorem remove_dead_nodes_exact :
    ∀ (now texpire : Int) (reg : List Node),
      (∀ n, n ∈ RemoveDeadNodes now texpire reg →
        ¬ (now - nodeUpdatedAt n > texpire)) ∧
      (∀ n, n ∈ reg → now - nodeUpdatedAt n ≤ texpire →
        n ∈ RemoveDeadNodes now texpire reg) ∧
      (RemoveDeadNodes now texpire reg).Sublist reg := by
  intro now texpire reg
  refine ⟨?_, ?_, List.filter_sublist reg⟩
  · intro n hn
    have hf : freshNode now texpire n = true := (List.mem_filter.mp hn).2
    simp only [freshNode, decide_eq_true_eq] at hf
    omega
  · intro n hn hle
    exact List.mem_filter.mpr ⟨hn, by simp only [freshNode, decide_eq_true_eq]; omega⟩

/-- Witness for C4: with clock 100 and window 10, the node refreshed at
95 survives `RemoveDeadNodes` and every survivor is non-stale. -/
theorem remove_dead_nodes_exact_witness :
    sampleNode "a" 95 ∈ RemoveDeadNodes 100 10 [sampleNode "a" 95, sampleNode "b" 0] ∧
    ¬ (100 - nodeUpdatedAt (sampleNode "a" 95) > 10) := by
  refine ⟨?_, ?_⟩
  · exact (remove_dead_nodes_exact 100 10 [sampleNode "a" 95, sampleNode "b" 0]).2.1
      (sampleNode "a" 95) (List.mem_cons_self _ _) (by decide)
  · exact (remove_dead_nodes_exact 100 10 [sampleNode "a" 95, sampleNode "b" 0]).1
      (sampleNode "a" 95) (by decide)

/-- C7: the node selector returns a node of the given list whose
heartbeat is fresh, or fails with "no available nodes"; it fails when no
node is fresh, and in particular on the empty list; it never fabricates a
node outside the list. -/
theorem select_node_sound :
    ∀ (seed : Nat) (now texpire : Int) (nodes : List Node) (room : String),
      (∀ n, SelectNode seed now texpire nodes room = Except.ok n →
        n ∈ nodes ∧ freshNode now texpire n = true) ∧
      (nodes.filter (freshNode now texpire) = [] →
        SelectNode seed now texpire nodes room = Except.error "no available nodes") ∧
      SelectNode seed now texpire [] room = Except.error "no available nodes" := by
  intro seed now texpire nodes room
  refine ⟨fun n hok => selectNode_ok_mem seed now texpire nodes room n hok, ?_, ?_⟩
  · intro h
    simp [SelectNode, h]
  · simp [SelectNode]

/-- Witness for C7: over a one-node list with a fresh heartbeat the
selector returns that node, a member of the list; over a list holding
only a stale node it fails with "no available nodes". -/
theorem select_node_sound_witness :
    (sampleNode "a" 95 ∈ [sampleNode "a" 95] ∧
      freshNode 100 10 (sampleNode "a" 95) = true) ∧
    SelectNode 3 100 10 [sampleNode "b" 0] "roomZ" =
      Except.error "no available nodes" := by
  refine ⟨(select_node_sound 3 100 10 [sampleNode "a" 95] "roomZ").1
    (sampleNode "a" 95) ?_, (select_node_sound 3 100 10 [sampleNode "b" 0] "roomZ").2.1 ?_⟩
  · rfl
  · decide

/-- C8: `Close` on a sink is idempotent: a second close is a no-op on the
channel state, and a second pipe-level close (from either the signal or
the RTC side) leaves the whole settled pipe state, buffered and observed
sequences and fired close observers included, exactly as after the
first. -/
theorem sink_close_idempotent :
    ∀ (α : Type) (c : Chan α) (p : SessionPipe),
      closeChan (closeChan c) = closeChan c ∧
      closeFromSignal (closeFromSignal p) = closeFromSignal p ∧
      closeFromRTC (closeFromRTC p) = closeFromRTC p := by
  intro α c p
  refine ⟨rfl, ?_, ?_⟩ <;>
    simp [closeFromSignal, closeFromRTC, settlePipe, closePipe, closeChan]

/-- C2: over every execution of a pipe direction the sequence of request
messages handed to the RTC-side source is a prefix of the sequence the
signal-side sink accepted (FIFO, no reordering, no duplication), and no
message is delivered after the consumer has observed the close. -/
theorem session_pipe_fifo_order :
    ∀ (ops more : List (PipeOp SignalRequest)),
      (∃ t, (runChan Chan.init ops).written =
        (runChan Chan.init ops).delivered ++ t) ∧
      ((runChan Chan.init ops).closeObserved = true →
        (runChan Chan.init (ops ++ more)).delivered =
          (runChan Chan.init ops).delivered) := by
  intro ops more
  have hinv : ChanInv (runChan Chan.init ops) := chanInv_run ops Chan.init chanInv_init
  refine ⟨⟨(runChan Chan.init ops).buf, hinv.1⟩, ?_⟩
  intro hobs
  have happ : runChan (Chan.init (α := SignalRequest)) (ops ++ more) =
      runChan (runChan Chan.init ops) more := by
    simp [runChan, List.foldl_append]
  rw [happ]
  exact run_after_observed more _ hinv hobs

/-- Witness for C2: a concrete execution that writes, delivers, closes
and observes the close; the continuation that keeps writing and reading
afterwards delivers nothing further. -/
theorem session_pipe_fifo_order_witness :
    (runChan Chan.init (sampleOps ++ sampleMoreOps)).delivered =
      (runChan Chan.init sampleOps).delivered :=
  (session_pipe_fifo_order sampleOps sampleMoreOps).2 (by decide)

/-- C6: closing either end of a session pipe propagates: after a close of
the request sink (signal side) or of the response sink (RTC side,
the `EndSession` path), the settled pipe has both close observers fired,
and draining each source for its buffered backlog plus one receive makes
it reach end-of-sequence — a bounded grace window. -/
theorem close_propagation :
    ∀ p : SessionPipe,
      ((closeFromSignal p).req.onCloseFired = true ∧
       (closeFromSignal p).res.onCloseFired = true ∧
       (readAll (closeFromSignal p).req
         ((closeFromSignal p).req.buf.length + 1)).closeObserved = true ∧
       (readAll (closeFromSignal p).res
         ((closeFromSignal p).res.buf.length + 1)).closeObserved = true) ∧
      ((closeFromRTC p).req.onCloseFired = true ∧
       (closeFromRTC p).res.onCloseFired = true ∧
       (readAll (closeFromRTC p).req
         ((closeFromRTC p).req.buf.length + 1)).closeObserved = true ∧
       (readAll (closeFromRTC p).res
         ((closeFromRTC p).res.buf.length + 1)).closeObserved = true) := by
  intro p
  have h1 : closeFromSignal p =
      { req := closeChan p.req, res := closeChan p.res } := by
    simp [closeFromSignal, settlePipe, closePipe, closeChan]
  have h2 : closeFromRTC p =
      { req := closeChan p.req, res := closeChan p.res } := by
    simp [closeFromRTC, settlePipe, closePipe, closeChan]
  rw [h1, h2]
  exact ⟨⟨rfl, rfl, readAll_observes_close _ _ rfl (Nat.le_refl _),
          readAll_observes_close _ _ rfl (Nat.le_refl _)⟩,
         ⟨rfl, rfl, readAll_observes_close _ _ rfl (Nat.le_refl _),
          readAll_observes_close _ _ rfl (Nat.le_refl _)⟩⟩

/-- C3: `StartParticipantSignal` performs at most one internal retry (at
most one `ClearRoomState` in its store trace); when the bound node is
dead and, after clearing, no live node remains, it returns the error
"no available node" having retried exactly once; and the other routing
operations each issue exactly one store operation, never retrying
internally. -/
theorem start_participant_signal_single_retry :
    ∀ (st : RState) (room nodeId : String),
      delCount (StartParticipantSignal st room).2 ≤ 1 ∧
      (st.dir room = some nodeId → isLiveIn st nodeId = false →
        st.nodes.filter (freshNode st.now st.texpire) = [] →
        (StartParticipantSignal st room).1 = Except.error "no available node" ∧
        delCount (StartParticipantSignal st room).2 = 1) ∧
      ((SetNodeForRoomT st.dir room nodeId).2.length = 1 ∧
       (GetNodeForRoomT st.dir room).2.length = 1 ∧
       (ClearRoomStateT st.dir room).2.length = 1 ∧
       (RemoveDeadNodesT st.now st.texpire st.nodes).2.length = 1) := by
  intro st room nodeId
  refine ⟨?_, ?_, rfl, rfl, rfl, rfl⟩
  · rcases h1 : assignRoom st room with ⟨r1, tr1⟩
    have htr1 : delCount tr1 = 0 := by
      have h := assignRoom_delCount st room
      rw [h1] at h
      exact h
    cases r1 with
    | error e => simp [StartParticipantSignal, h1, htr1]
    | ok v =>
        rcases v with ⟨st1, n⟩
        by_cases hl : isLiveIn st1 n = true
        · simp [StartParticipantSignal, h1, hl, htr1]
        · have hl2 : isLiveIn st1 n = false := by simpa using hl
          rcases h3 : assignRoom { st1 with dir := ClearRoomState st1.dir room } room
            with ⟨r3, tr3⟩
          have htr3 : delCount tr3 = 0 := by
            have h := assignRoom_delCount { st1 with dir := ClearRoomState st1.dir room } room
            rw [h3] at h
            exact h
          have hone : delCount [StoreOp.del room] = 1 := rfl
          cases r3 with
          | error e =>
              simp [StartParticipantSignal, h1, hl2, h3, delCount_append, delCount_del_cons, htr1, htr3, hone]
          | ok v3 =>
              rcases v3 with ⟨st3, n3⟩
              by_cases hl3 : isLiveIn st3 n3 = true
              · simp [StartParticipantSignal, h1, hl2, h3, hl3, delCount_append, delCount_del_cons,
                      htr1, htr3, hone]
              · have hl4 : isLiveIn st3 n3 = false := by simpa using hl3
                simp [StartParticipantSignal, h1, hl2, h3, hl4, delCount_append, delCount_del_cons,
                      htr1, htr3, hone]
  · intro hroom hlive hfilter
    have ha1 : assignRoom st room = (Except.ok (st, nodeId), [StoreOp.get room]) := by
      simp [assignRoom, hroom]
    have hdir2 : ClearRoomState st.dir room room = none := by
      simp [ClearRoomState]
    have hsel : SelectNode st.seed st.now st.texpire st.nodes room =
        Except.error "no available nodes" := by
      simp [SelectNode, hfilter]
    have ha2 : assignRoom { st with dir := ClearRoomState st.dir room } room =
        (Except.error "no available nodes", [StoreOp.get room]) := by
      simp [assignRoom, hdir2, hsel]
    simp [StartParticipantSignal, ha1, hlive, ha2, delCount]

/-- Witness for C3: the dead-owner state (room bound to `n2`, registry
holding only a stale record for `n2`) makes `StartParticipantSignal`
retry once and return "no available node". -/
theorem start_participant_signal_single_retry_witness :
    (StartParticipantSignal staleOwnerState "roomC").1 =
      Except.error "no available node" ∧
    delCount (StartParticipantSignal staleOwnerState "roomC").2 = 1 :=
  (start_participant_signal_single_retry staleOwnerState "roomC" "n2").2.1
    rfl (by decide) (by decide)

end Routing
